import Mathlib

/-!
Verification development for the article-search microservice
(`main.py`, `neo4j_conn.py`): a shallow embedding of the content
extraction, article fetching, retry, reindex, search and health-check
logic, with theorems checking the natural-language specification
against it.
-/

namespace ArticleSearch

/-! Content trees.

The function `extract_text_from_json` in `neo4j_conn.py` dispatches on
`isinstance(obj, dict)`, `isinstance(obj, list)`, `isinstance(obj, str)`;
every other Python value (numbers, booleans, `None`) falls through and
contributes nothing.  We embed the input domain as a tagged tree.
Objects and arrays are embedded as cons-lists (`JObj`, `JArr`) keeping
the source's enumeration order. -/

mutual

inductive JValue where
  | obj (entries : JObj)
  | arr (items : JArr)
  | str (s : String)
  | num (n : Int)
  | jbool (b : Bool)
  | null

inductive JObj where
  | nil
  | cons (key : String) (value : JValue) (rest : JObj)

inductive JArr where
  | nil
  | cons (head : JValue) (tail : JArr)

end

/-- Python's `sep.join(parts)`: concatenation of `parts` separated by
`sep`. -/
def pyJoin (sep : String) : List String → String
  | [] => ""
  | [a] => a
  | a :: b :: rest => a ++ sep ++ pyJoin sep (b :: rest)

/-- The final line of `extract_text_from_json`:
`" ".join(text for text in texts if text)` — empty (falsy) fragments are
dropped before joining with single spaces. -/
def joinTexts (texts : List String) : String :=
  pyJoin " " (texts.filter (fun t => t ≠ ""))

mutual

/-- Embedding of `extract_text_from_json` (neo4j_conn.py lines 9 to 33):
recursively collect text values.  In a dict, a value bound to the key
`"text"` that is a string is appended verbatim; every other value is
recursed into; list items are recursed into; a bare string is appended;
anything else contributes nothing.  The collected fragments are joined
by `joinTexts`. -/
def extract_text_from_json : JValue → String
  | .obj entries => joinTexts (objTexts entries)
  | .arr items => joinTexts (arrTexts items)
  | .str s => joinTexts [s]
  | .num _ => joinTexts []
  | .jbool _ => joinTexts []
  | .null => joinTexts []

/-- The dict branch of `extract_text_from_json`: one collected fragment
per key/value pair, in enumeration order:
`if key == "text" and isinstance(value, str): texts.append(value)
else: texts.append(extract_text_from_json(value))`. -/
def objTexts : JObj → List String
  | .nil => []
  | .cons k v rest =>
    (match k, v with
     | "text", .str s => s
     | _, _ => extract_text_from_json v) :: objTexts rest

/-- The list branch of `extract_text_from_json`: one collected fragment
per item, in positional order. -/
def arrTexts : JArr → List String
  | .nil => []
  | .cons v rest => extract_text_from_json v :: arrTexts rest

end

mutual

/-- Specification-side definition (§4.1): the text fragments of a
content tree collected in depth-first, pre-order,
key/array-order-preserving traversal.  String leaves are the fragments;
numbers, booleans and null contribute nothing. -/
def fragments : JValue → List String
  | .obj entries => objFragments entries
  | .arr items => arrFragments items
  | .str s => [s]
  | .num _ => []
  | .jbool _ => []
  | .null => []

/-- Pre-order fragments of a dict, in key enumeration order. -/
def objFragments : JObj → List String
  | .nil => []
  | .cons _ v rest => fragments v ++ objFragments rest

/-- Pre-order fragments of a list, in positional order. -/
def arrFragments : JArr → List String
  | .nil => []
  | .cons v rest => fragments v ++ arrFragments rest

end

/-- Binary "join with a space, skipping empty sides": the monoid-like
operation underlying `joinTexts`. -/
def glue (a b : String) : String :=
  if a = "" then b else if b = "" then a else a ++ " " ++ b

/-- The per-entry fragment of the dict branch, named for reasoning. -/
def entryText (k : String) (v : JValue) : String :=
  match k, v with
  | "text", .str s => s
  | _, _ => extract_text_from_json v

/-! Exceptions and the tenacity retry decorator.

Both `Neo4jService.get_articles` and `search_articles` are wrapped in
`@retry(stop=stop_after_attempt(3), wait=wait_fixed(2), retry=retry_if_exception_type(...), before_sleep=<log warning with attempt number>)`.
We embed the exceptions that can cross these boundaries and the
decorator's semantics: run the body; on an exception matched by the
retry predicate, log a warning carrying the attempt number, sleep the
fixed delay and re-attempt, until the attempt budget is exhausted, at
which point a `RetryError` wrapping the last exception is raised; an
exception not matched by the predicate is re-raised immediately. -/

inductive PyExc where
  | meilisearchApiError (error_code : String) (msg : String)
  | httpException (status : Nat) (detail : String)
  | validationError (msg : String)
  | serviceUnavailable (msg : String)
  | valueError (msg : String)
  | retryError (last : PyExc)
deriving DecidableEq

/-- Python `str(e)` for the embedded exceptions. -/
def pyStrExc : PyExc → String
  | .meilisearchApiError _ msg => msg
  | .httpException _ detail => detail
  | .validationError msg => msg
  | .serviceUnavailable msg => msg
  | .valueError msg => msg
  | .retryError last => "RetryError: " ++ pyStrExc last

/-- Observable trace of one tenacity-decorated call: the outcome, how
many times the body ran, the warning events (`before_sleep`, carrying
the attempt number) and the fixed delays slept. -/
structure RetryTrace (α : Type) where
  result : Except PyExc α
  attempts : Nat
  warnings : List Nat
  delays : List Nat

/-- One step of the tenacity loop; `fuel` is the number of attempts
still allowed, `n` the current attempt number. -/
def tenacityGo (retryable : PyExc → Bool) (wait : Nat)
    (body : Nat → Except PyExc α) :
    Nat → Nat → List Nat → List Nat → RetryTrace α
  | 0, n, ws, ds => ⟨.error (.retryError (.valueError "no attempts")), n, ws, ds⟩
  | 1, n, ws, ds =>
    match body n with
    | .ok a => ⟨.ok a, n, ws, ds⟩
    | .error e =>
      if retryable e then ⟨.error (.retryError e), n, ws, ds⟩
      else ⟨.error e, n, ws, ds⟩
  | fuel + 2, n, ws, ds =>
    match body n with
    | .ok a => ⟨.ok a, n, ws, ds⟩
    | .error e =>
      if retryable e then
        tenacityGo retryable wait body (fuel + 1) (n + 1) (ws ++ [n]) (ds ++ [wait])
      else ⟨.error e, n, ws, ds⟩

/-- The decorator
`@retry(stop=stop_after_attempt(maxAttempts), wait=wait_fixed(wait), retry=retry_if_exception_type(...))`
applied to a body whose outcome on attempt `n` is `body n`. -/
def tenacityRun (retryable : PyExc → Bool) (maxAttempts wait : Nat)
    (body : Nat → Except PyExc α) : RetryTrace α :=
  tenacityGo retryable wait body maxAttempts 1 [] []

/-! Articles and the repository (`Neo4jService.get_articles`). -/

/-- Normalized article record produced by `get_articles`:
id, title, description and the derived flattened content. -/
structure Article where
  id : String
  title : String
  description : String
  content : String
deriving DecidableEq

/-- A search hit returned by Meilisearch (`SearchResult` model in
`main.py`): id, title, description. -/
structure SearchHit where
  id : String
  title : String
  description : String
deriving DecidableEq

/-- The raw `n.contentJson` payload of a store record: absent (`None`),
a string, or already-structured data. -/
inductive RawContent where
  | absent
  | strPayload (s : String)
  | structured (j : JValue)

/-- Python truthiness of a content tree (`if content_json_raw:`). -/
def jTruthy : JValue → Bool
  | .obj .nil => false
  | .obj _ => true
  | .arr .nil => false
  | .arr _ => true
  | .str s => s ≠ ""
  | .num n => n ≠ 0
  | .jbool b => b
  | .null => false

/-- Python truthiness of the raw payload. -/
def pyTruthy : RawContent → Bool
  | .absent => false
  | .strPayload s => s ≠ ""
  | .structured j => jTruthy j

/-- A raw record as returned by the store query
`MATCH (n:Article) RETURN n.id, n.title, n.description, n.contentJson`. -/
structure RawRecord where
  id : String
  title : String
  description : String
  contentJson : RawContent

/-- The `content_json` computed in `get_articles` (lines 97 to 105): a
string payload is decoded with `json.loads` (modelled by the `loads`
parameter, `none` meaning `JSONDecodeError`); on decode failure the raw
string itself is used; a non-string payload is used as is.  Reached only
for truthy payloads. -/
def decodeContent (loads : String → Option JValue) : RawContent → JValue
  | .strPayload s =>
    match loads s with
    | some j => j
    | none => .str s
  | .structured j => j
  | .absent => .null

/-- Content processing for one record (`get_articles` lines 94 to 115).
`extractImpl` stands for the call `extract_text_from_json(content_json)`
inside the record-level `try`; an `.error` outcome models the "any
unexpected error" the source catches there, upon which the content falls
back to `str(content_json_raw)` (modelled by `reprRaw`, which on a
string payload is the string itself). -/
def processContent (loads : String → Option JValue)
    (extractImpl : JValue → Except PyExc String)
    (reprRaw : RawContent → String) (raw : RawContent) : String :=
  if pyTruthy raw then
    match extractImpl (decodeContent loads raw) with
    | .ok t => t
    | .error _ => reprRaw raw
  else ""

/-- The record loop of `get_articles`: every record of the page is
turned into an `Article`; content processing of one record cannot abort
the loop. -/
def processRecords (loads : String → Option JValue)
    (extractImpl : JValue → Except PyExc String)
    (reprRaw : RawContent → String) (records : List RawRecord) : List Article :=
  records.map (fun r =>
    { id := r.id, title := r.title, description := r.description,
      content := processContent loads extractImpl reprRaw r.contentJson })

/-- Semantics of `SKIP $skip LIMIT $limit` in the store query over a
stable backing store holding `store` in order. -/
def get_articles_page (store : List RawRecord) (skip limit : Nat) : List RawRecord :=
  (store.drop skip).take limit

/-- The retry decorator on `Neo4jService.get_articles`:
`stop_after_attempt(3)`, `wait_fixed(2)`,
`retry_if_exception_type(Exception)` — every exception matches the
predicate. -/
def get_articles_retry (body : Nat → Except PyExc α) : RetryTrace α :=
  tenacityRun (fun _ => true) 3 2 body

/-- Records pulled by one reindex run: `reindex_articles` calls
`neo4j_service.get_articles()` once, with the declaration's defaults
`skip=0, limit=100`. -/
def reindex_fetched_records (store : List RawRecord) : List RawRecord :=
  get_articles_page store 0 100

/-- Modelled from the spec: the glossary's transient-failure
classification ("an error classified as likely to succeed on retry
(e.g., network blip), as opposed to a permanent/validation failure") —
connectivity/availability failures are transient, the rest are not. -/
def isTransient : PyExc → Bool
  | .serviceUnavailable _ => true
  | _ => false

/-! The search endpoint (`search_articles` in `main.py`). -/

/-- Predicate of the retry decorator on `search_articles`:
`retry_if_exception_type(MeilisearchApiError)`. -/
def isMeilisearchApiError : PyExc → Bool
  | .meilisearchApiError _ _ => true
  | _ => false

/-- Body of `search_articles` for one attempt, given the outcome of
`index.search(query.query, ...)`: a `MeilisearchApiError` is caught and
re-raised as `HTTPException(500, "Search failed: Meilisearch error - " + error_code)`;
any other exception is caught and re-raised as
`HTTPException(500, "Search failed: " + str(e))`. -/
def search_articles_body (searchOutcome : Except PyExc (List SearchHit)) :
    Except PyExc (List SearchHit) :=
  match searchOutcome with
  | .ok hits => .ok hits
  | .error (.meilisearchApiError code _) =>
    .error (.httpException 500 ("Search failed: Meilisearch error - " ++ code))
  | .error e => .error (.httpException 500 ("Search failed: " ++ pyStrExc e))

/-- The `@retry`-decorated `search_articles` handler: the decorator
wraps the handler body (whose per-attempt `index.search` outcome is
`oracle n`). -/
def search_articles_run (oracle : Nat → Except PyExc (List SearchHit)) :
    RetryTrace (List SearchHit) :=
  tenacityRun isMeilisearchApiError 3 2 (fun n => search_articles_body (oracle n))

/-- Pydantic validation of the request model
`SearchQuery(query: str = Field(..., max_length=500))`. -/
def searchQueryValid (q : String) : Bool :=
  q.length ≤ 500

/-- Endpoint `POST /search`: FastAPI validates the `SearchQuery` body
before the handler runs; an invalid body is rejected with a validation
error and the handler (hence the index) is never invoked.  The second
component lists the queries sent to `index.search` — one per executed
attempt. -/
def postSearch (oracle : Nat → Except PyExc (List SearchHit)) (q : String) :
    Except PyExc (List SearchHit) × List String :=
  if searchQueryValid q then
    let t := search_articles_run oracle
    (t.result, List.replicate t.attempts q)
  else
    (.error (.validationError "String should have at most 500 characters"), [])

/-! The health endpoint (`health_check` in `main.py`). -/

/-- Observable outcome of `GET /health`: the per-dependency status
strings, how many times each dependency was probed, and the overall
verdict (`all(status == "healthy" ...)`). -/
structure HealthReport where
  neo4jStatus : String
  meiliStatus : String
  neoProbeAttempts : Nat
  meiliProbeAttempts : Nat
  overallHealthy : Bool
deriving DecidableEq

/-- The handler `health_check`: the Neo4j probe is
`get_articles(limit=1)` — which carries the retry decorator of
`get_articles`, `neoOracle n` being the store's response to the `n`-th
underlying probe; the Meilisearch probe is a single
`client.get_index("articles")` call with outcome `meiliOracle`. -/
def health_check (neoOracle : Nat → Except PyExc (List Article))
    (meiliOracle : Except PyExc Unit) : HealthReport :=
  let t := get_articles_retry neoOracle
  let neoStatus :=
    match t.result with
    | .ok _ => "healthy"
    | .error e => "unhealthy: " ++ pyStrExc e
  let meiliStatus :=
    match meiliOracle with
    | .ok _ => "healthy"
    | .error e => "unhealthy: " ++ pyStrExc e
  { neo4jStatus := neoStatus, meiliStatus := meiliStatus,
    neoProbeAttempts := t.attempts, meiliProbeAttempts := 1,
    overallHealthy := neoStatus == "healthy" && meiliStatus == "healthy" }

/-! The reindex run (`reindex_articles` in `main.py`). -/

/-- The body of `reindex_articles` inside its outer `try`: fetch all
articles, `get_index("articles")` (creating the index when the error
code is `index_not_found`, re-raising any other `MeilisearchApiError`),
then `add_documents`.  Returns the info-log of the successful stages. -/
def reindex_body (fetch : Except PyExc (List Article))
    (getIndex : Except PyExc Unit) (createIndex : Except PyExc Unit)
    (addDocs : List Article → Except PyExc Unit) :
    Except PyExc (List String) :=
  match fetch with
  | .error e => .error e
  | .ok articles =>
    let ensure : Except PyExc (List String) :=
      match getIndex with
      | .ok _ => .ok []
      | .error (.meilisearchApiError code msg) =>
        if code = "index_not_found" then
          match createIndex with
          | .ok _ => .ok ["Created Meilisearch index articles"]
          | .error e => .error e
        else .error (.meilisearchApiError code msg)
      | .error e => .error e
    match ensure with
    | .error e => .error e
    | .ok log1 =>
      match addDocs articles with
      | .ok _ => .ok (log1 ++ ["Reindexed articles in Meilisearch"])
      | .error e => .error e

/-- What one scheduled run reports: whether it completed, and its log. -/
structure ReindexReport where
  completed : Bool
  log : List String
deriving DecidableEq

/-- The scheduled job `reindex_articles`: the whole body is wrapped in
`try: ... except Exception as e: logger.error("Reindexing failed: " + str(e))`,
so the run always returns normally — an exception at any stage is turned
into an error-log entry. -/
def reindex_articles_run (fetch : Except PyExc (List Article))
    (getIndex : Except PyExc Unit) (createIndex : Except PyExc Unit)
    (addDocs : List Article → Except PyExc Unit) : ReindexReport :=
  match reindex_body fetch getIndex createIndex addDocs with
  | .ok log => { completed := true, log := log }
  | .error e => { completed := false, log := ["Reindexing failed: " ++ pyStrExc e] }

/-- One record of the 101-record counterexample store. -/
def mkStoreRecord (i : Nat) : RawRecord :=
  { id := toString i, title := "title", description := "desc",
    contentJson := .absent }

/-- A stable store holding 101 distinct article records. -/
def store101 : List RawRecord := (List.range 101).map mkStoreRecord

/-! Lemmas about joining text fragments. -/

theorem append_sep_ne_empty (a b : String) : a ++ " " ++ b ≠ "" := by
  intro h
  have hlen := congrArg String.length h
  rw [String.length_append, String.length_append] at hlen
  have h1 : (" " : String).length = 1 := rfl
  have h0 : ("" : String).length = 0 := rfl
  rw [h1, h0] at hlen
  omega

theorem glue_empty_left (b : String) : glue "" b = b := by
  simp [glue]

theorem glue_empty_right (a : String) : glue a "" = a := by
  unfold glue
  split_ifs with h1 h2
  · exact h1.symm
  · rfl
  · exact absurd rfl h2

theorem glue_assoc (a b c : String) : glue (glue a b) c = glue a (glue b c) := by
  by_cases ha : a = ""
  · subst ha; rw [glue_empty_left, glue_empty_left]
  by_cases hb : b = ""
  · subst hb; rw [glue_empty_right, glue_empty_left]
  by_cases hc : c = ""
  · subst hc; rw [glue_empty_right, glue_empty_right]
  have hab : a ++ " " ++ b ≠ "" := append_sep_ne_empty a b
  have hbc : b ++ " " ++ c ≠ "" := append_sep_ne_empty b c
  rw [show glue a b = a ++ " " ++ b from by simp [glue, ha, hb]]
  rw [show glue b c = b ++ " " ++ c from by simp [glue, hb, hc]]
  rw [show glue (a ++ " " ++ b) c = a ++ " " ++ b ++ " " ++ c from by
    simp [glue, hab, hc]]
  rw [show glue a (b ++ " " ++ c) = a ++ " " ++ (b ++ " " ++ c) from by
    simp [glue, ha, hbc]]
  simp [String.append_assoc]

theorem pyJoin_cons_ne_empty (b : String) (t : List String) (hb : b ≠ "") :
    pyJoin " " (b :: t) ≠ "" := by
  cases t with
  | nil => simpa [pyJoin] using hb
  | cons c t2 =>
    simpa [pyJoin] using append_sep_ne_empty b (pyJoin " " (c :: t2))

theorem joinTexts_eq_foldr (l : List String) : joinTexts l = l.foldr glue "" := by
  induction l with
  | nil => rfl
  | cons a l ih =>
    by_cases ha : a = ""
    · subst ha
      simp only [joinTexts, List.filter_cons] at *
      simpa [glue_empty_left] using ih
    · simp only [joinTexts, List.filter_cons, decide_eq_true_eq, if_pos ha,
        List.foldr_cons] at *
      rw [← ih]
      cases hfl : (l.filter (fun t => t ≠ "")) with
      | nil => simp [pyJoin, joinTexts, hfl, glue_empty_right]
      | cons b t =>
        have hb : b ≠ "" := by
          have hmem : b ∈ l.filter (fun t => t ≠ "") := by
            rw [hfl]; exact List.mem_cons_self b t
          simpa using (List.of_mem_filter hmem)
        have hne : pyJoin " " (b :: t) ≠ "" := pyJoin_cons_ne_empty b t hb
        simp [joinTexts, hfl, pyJoin, glue, ha, hne]

theorem foldr_glue_append (l₁ l₂ : List String) :
    (l₁ ++ l₂).foldr glue "" = glue (l₁.foldr glue "") (l₂.foldr glue "") := by
  induction l₁ with
  | nil => simp [glue_empty_left]
  | cons a l ih => simp [List.foldr_cons, ih, glue_assoc]

theorem objTexts_cons (k : String) (v : JValue) (rest : JObj) :
    objTexts (.cons k v rest) = entryText k v :: objTexts rest := rfl

theorem extract_str (s : String) : extract_text_from_json (.str s) = s := by
  by_cases hs : s = "" <;> simp [extract_text_from_json, joinTexts, pyJoin, hs]

/-- A dict entry's collected fragment always coincides with the full
extraction of its value: the verbatim shortcut for a string under the
key `"text"` returns the same text that recursing would. -/
theorem entryText_eq_extract (k : String) (v : JValue) :
    entryText k v = extract_text_from_json v := by
  unfold entryText
  split
  · exact (extract_str _).symm
  · rfl

mutual

/-- The implementation's extraction agrees, on every tree, with the
spec-side description: join the pre-order fragment list with single
spaces, skipping empty fragments. -/
theorem extract_eq_joinFragments : ∀ (v : JValue),
    extract_text_from_json v = joinTexts (fragments v)
  | .obj entries => objTexts_eq_objFragments entries
  | .arr items => arrTexts_eq_arrFragments items
  | .str s => rfl
  | .num _ => rfl
  | .jbool _ => rfl
  | .null => rfl

theorem objTexts_eq_objFragments : ∀ (entries : JObj),
    joinTexts (objTexts entries) = joinTexts (objFragments entries)
  | .nil => rfl
  | .cons k v rest => by
    have hv : extract_text_from_json v = (fragments v).foldr glue "" := by
      rw [extract_eq_joinFragments v, joinTexts_eq_foldr]
    have hrest : (objTexts rest).foldr glue "" = (objFragments rest).foldr glue "" := by
      have h := objTexts_eq_objFragments rest
      rwa [joinTexts_eq_foldr, joinTexts_eq_foldr] at h
    rw [show objTexts (.cons k v rest) = entryText k v :: objTexts rest from
      objTexts_cons k v rest]
    show joinTexts (entryText k v :: objTexts rest) =
      joinTexts (objFragments (.cons k v rest))
    rw [show objFragments (.cons k v rest) = fragments v ++ objFragments rest from rfl]
    rw [joinTexts_eq_foldr, joinTexts_eq_foldr, List.foldr_cons, foldr_glue_append,
      entryText_eq_extract, hv, hrest]

theorem arrTexts_eq_arrFragments : ∀ (items : JArr),
    joinTexts (arrTexts items) = joinTexts (arrFragments items)
  | .nil => rfl
  | .cons v rest => by
    have hv : extract_text_from_json v = (fragments v).foldr glue "" := by
      rw [extract_eq_joinFragments v, joinTexts_eq_foldr]
    have hrest : (arrTexts rest).foldr glue "" = (arrFragments rest).foldr glue "" := by
      have h := arrTexts_eq_arrFragments rest
      rwa [joinTexts_eq_foldr, joinTexts_eq_foldr] at h
    show joinTexts (extract_text_from_json v :: arrTexts rest) =
      joinTexts (fragments v ++ arrFragments rest)
    rw [joinTexts_eq_foldr, joinTexts_eq_foldr, List.foldr_cons, foldr_glue_append,
      hv, hrest]

end

/-! Generic facts about the retry loop. -/

theorem tenacityGo_attempts_le (retryable : PyExc → Bool) (wait : Nat)
    (body : Nat → Except PyExc α) :
    ∀ (fuel n : Nat) (ws ds : List Nat), 1 ≤ fuel →
      (tenacityGo retryable wait body fuel n ws ds).attempts ≤ n + fuel - 1
  | 0, n, ws, ds, h => absurd h (by omega)
  | 1, n, ws, ds, _ => by
    unfold tenacityGo
    cases body n with
    | ok a => simp
    | error e =>
      by_cases hr : retryable e <;> simp [hr]
  | fuel + 2, n, ws, ds, _ => by
    have ih := tenacityGo_attempts_le retryable wait body (fuel + 1) (n + 1)
      (ws ++ [n]) (ds ++ [wait]) (by omega)
    unfold tenacityGo
    cases body n with
    | ok a => simp
    | error e =>
      by_cases hr : retryable e <;> simp [hr] <;> omega

theorem tenacityGo_attempts_ge (retryable : PyExc → Bool) (wait : Nat)
    (body : Nat → Except PyExc α) :
    ∀ (fuel n : Nat) (ws ds : List Nat),
      n ≤ (tenacityGo retryable wait body fuel n ws ds).attempts
  | 0, n, ws, ds => by simp [tenacityGo]
  | 1, n, ws, ds => by
    unfold tenacityGo
    cases body n with
    | ok a => simp
    | error e =>
      by_cases hr : retryable e <;> simp [hr]
  | fuel + 2, n, ws, ds => by
    have ih := tenacityGo_attempts_ge retryable wait body (fuel + 1) (n + 1)
      (ws ++ [n]) (ds ++ [wait])
    unfold tenacityGo
    cases body n with
    | ok a => simp
    | error e =>
      by_cases hr : retryable e <;> simp [hr] <;> omega

theorem tenacityRun3_attempts_le (retryable : PyExc → Bool) (wait : Nat)
    (body : Nat → Except PyExc α) :
    (tenacityRun retryable 3 wait body).attempts ≤ 3 :=
  tenacityGo_attempts_le retryable wait body 3 1 [] [] (by omega)

theorem tenacityRun3_attempts_ge (retryable : PyExc → Bool) (wait : Nat)
    (body : Nat → Except PyExc α) :
    1 ≤ (tenacityRun retryable 3 wait body).attempts :=
  tenacityGo_attempts_ge retryable wait body 3 1 [] []

/-! Theorems settling the claims. -/

/-- C4: `extract_text_from_json` is total over the whole input domain and
returns the space-joined concatenation of all collected text fragments in
depth-first, pre-order traversal preserving object-key enumeration order
and array positional order; empty fragments contribute no extra
separators, numbers, booleans and null contribute nothing, and
`extract(\x7b"text": "a", "other": \x7b"text": "b"\x7d\x7d) = "a b"`. -/
theorem C4_extract_preorder_space_join :
    (∀ v : JValue, extract_text_from_json v =
      pyJoin " " ((fragments v).filter (fun t => t ≠ ""))) ∧
    (∀ n : Int, extract_text_from_json (.num n) = "") ∧
    (∀ b : Bool, extract_text_from_json (.jbool b) = "") ∧
    extract_text_from_json .null = "" ∧
    extract_text_from_json (.obj (.cons "text" (.str "a")
      (.cons "other" (.obj (.cons "text" (.str "b") .nil)) .nil))) = "a b" :=
  ⟨fun v => extract_eq_joinFragments v, fun _ => rfl, fun _ => rfl, rfl, by decide⟩

/-- C10: in `extract_text_from_json`, a dict key named `"text"` whose
value is not a string is not dropped but recursed into like any other
key (so `extract(\x7b"text": \x7b"text": "a"\x7d\x7d) = "a"`), and only a string
value bound to `"text"` is taken verbatim. -/
theorem C10_text_key_nonstring_recursed :
    (∀ (k : String) (v : JValue) (rest : JObj), (∀ s, v ≠ .str s) →
      objTexts (.cons k v rest) = extract_text_from_json v :: objTexts rest) ∧
    extract_text_from_json
      (.obj (.cons "text" (.obj (.cons "text" (.str "a") .nil)) .nil)) = "a" ∧
    (∀ (s : String) (rest : JObj),
      objTexts (.cons "text" (.str s) rest) = s :: objTexts rest) := by
  refine ⟨?_, by decide, fun s rest => rfl⟩
  intro k v rest _
  rw [objTexts_cons, entryText_eq_extract]

/-- Witness for C10 at a concrete non-string `"text"` value. -/
theorem C10_text_key_nonstring_recursed_witness :
    objTexts (.cons "text" (.num 7) .nil) =
      extract_text_from_json (.num 7) :: objTexts .nil :=
  C10_text_key_nonstring_recursed.1 "text" (.num 7) .nil
    (fun s h => JValue.noConfusion h)

/-- C2 (code bug, evaluated at the failing input): on a search request
whose `index.search` raises `MeilisearchApiError` on every attempt, the
handler converts the exception to `HTTPException` inside the
`@retry`-wrapped body, so tenacity's
`retry_if_exception_type(MeilisearchApiError)` never matches: the
request fails after exactly 1 attempt, with no retry warnings and no
delays — not after 3 attempts with 2 warnings as the claim states. -/
theorem C2_meili_failure_not_retried :
    ∀ (c m : String),
      search_articles_run (fun _ => .error (.meilisearchApiError c m)) =
        ⟨.error (.httpException 500 ("Search failed: Meilisearch error - " ++ c)),
          1, [], []⟩ :=
  fun _ _ => rfl

/-- C7 counterexample: the claim says only transient failures are
retried, but the predicate of `get_articles` is
`retry_if_exception_type(Exception)`: a non-transient failure (a
`ValueError`) is also attempted 3 times with 2 retry warnings instead of
failing immediately. -/
theorem C7_counterexample_nontransient_retried :
    isTransient (.valueError "not a transient failure") = false ∧
    (get_articles_retry (fun _ =>
      (.error (.valueError "not a transient failure") :
        Except PyExc (List Article)))).attempts = 3 ∧
    (get_articles_retry (fun _ =>
      (.error (.valueError "not a transient failure") :
        Except PyExc (List Article)))).warnings = [1, 2] :=
  ⟨rfl, rfl, rfl⟩

/-- C7 as amended: `get_articles` retries every failure (transient or
not): at most 3 attempts with a fixed 2-second inter-attempt delay, each
retry logged as a warning carrying the attempt number (1 then 2), and
after the budget is exhausted a `RetryError` wrapping the last failure —
the realisation of the spec's `RepositoryError` — propagates to the
caller; a failure followed by a success stops retrying. -/
theorem C7_repository_retry_policy :
    (∀ (e : Nat → PyExc),
      get_articles_retry (fun n => (.error (e n) : Except PyExc (List Article))) =
        ⟨.error (.retryError (e 3)), 3, [1, 2], [2, 2]⟩) ∧
    (∀ (e : PyExc) (page : List Article),
      get_articles_retry (fun n => if n = 1 then .error e else .ok page) =
        ⟨.ok page, 2, [1], [2]⟩) :=
  ⟨fun _ => rfl, fun _ _ => rfl⟩

/-- C3 counterexample: the Neo4j probe of `health_check` is
`get_articles(limit=1)`, which carries the repository's retry decorator:
after a single transient probe failure the probe is re-invoked (2
invocations here), and the run is reported healthy — the failure is
masked by retrying, contradicting "each dependency's probe operation is
invoked at most once" and "a single transient probe failure is reported
as Unhealthy". -/
theorem C3_counterexample_probe_retried :
    (health_check
      (fun n => if n = 1 then .error (.serviceUnavailable "connection reset")
                else .ok [])
      (.ok ())).neoProbeAttempts = 2 ∧
    (health_check
      (fun n => if n = 1 then .error (.serviceUnavailable "connection reset")
                else .ok [])
      (.ok ())).neo4jStatus = "healthy" ∧
    isTransient (.serviceUnavailable "connection reset") = true :=
  ⟨rfl, rfl, rfl⟩

/-- C3 as amended: the Meilisearch probe is invoked exactly once per
`check()`, but the Neo4j probe inherits the retry policy of
`get_articles` and may be invoked up to 3 times; a persistently failing
Neo4j probe is attempted exactly 3 times and then reported unhealthy
(with the retry-exhaustion error), so only persistent — not single
transient — failures are guaranteed to surface. -/
theorem C3_health_probe_counts :
    (∀ (neoOracle : Nat → Except PyExc (List Article))
       (meiliOracle : Except PyExc Unit),
      (health_check neoOracle meiliOracle).meiliProbeAttempts = 1 ∧
      (health_check neoOracle meiliOracle).neoProbeAttempts ≤ 3) ∧
    (∀ (e : Nat → PyExc) (meiliOracle : Except PyExc Unit),
      (health_check (fun n => .error (e n)) meiliOracle).neoProbeAttempts = 3 ∧
      (health_check (fun n => .error (e n)) meiliOracle).neo4jStatus =
        "unhealthy: " ++ pyStrExc (.retryError (e 3))) :=
  ⟨fun neoOracle _ => ⟨rfl, tenacityRun3_attempts_le _ _ neoOracle⟩,
   fun _ _ => ⟨rfl, rfl⟩⟩

/-- C9 counterexample: two failing search runs differing only in the
internal exception's message produce different user-visible responses,
and the raw exception text (here an internal connection string) appears
verbatim in the response detail. -/
theorem C9_counterexample_raw_message_leaks :
    (postSearch (fun _ => .error (.valueError "bolt://neo4j:secret@db:7687 refused"))
        "q").1 ≠
      (postSearch (fun _ => .error (.valueError "x")) "q").1 ∧
    (postSearch (fun _ => .error (.valueError "bolt://neo4j:secret@db:7687 refused"))
        "q").1 =
      .error (.httpException 500
        ("Search failed: bolt://neo4j:secret@db:7687 refused")) := by
  refine ⟨?_, rfl⟩
  intro h
  have h2 : (Except.error (PyExc.httpException 500
        ("Search failed: bolt://neo4j:secret@db:7687 refused")) :
      Except PyExc (List SearchHit)) =
      Except.error (PyExc.httpException 500 ("Search failed: x")) := h
  injection h2 with h3
  injection h3 with _ h4
  exact absurd h4 (by decide)

/-- C9 as amended: only for `MeilisearchApiError` failures is the
user-visible detail a generic message plus the internal classification
(the `error_code`), independent of the exception's message; for every
other exception the detail embeds `str(e)` verbatim, so responses do
depend on the internal message. -/
theorem C9_detail_content_by_class :
    (∀ (c m m2 : String),
      (search_articles_run (fun _ => .error (.meilisearchApiError c m))).result =
        (search_articles_run (fun _ => .error (.meilisearchApiError c m2))).result ∧
      (search_articles_run (fun _ => .error (.meilisearchApiError c m))).result =
        .error (.httpException 500 ("Search failed: Meilisearch error - " ++ c))) ∧
    (∀ (msg : String),
      (search_articles_run (fun _ => .error (.valueError msg))).result =
        .error (.httpException 500 ("Search failed: " ++ msg))) :=
  ⟨fun _ _ _ => ⟨rfl, rfl⟩, fun _ => rfl⟩

/-- C6: a `/search` request whose query exceeds 500 characters is
rejected by the validation of the `SearchQuery` model with a validation
error before any index call is made; a query of length at most 500
(including the empty string) is accepted and delegated to the index (at
least one `index.search` call, with exactly the submitted query). -/
theorem C6_query_length_validation :
    (∀ (oracle : Nat → Except PyExc (List SearchHit)) (q : String),
      500 < q.length →
      postSearch oracle q =
        (.error (.validationError "String should have at most 500 characters"), [])) ∧
    (∀ (oracle : Nat → Except PyExc (List SearchHit)) (q : String),
      q.length ≤ 500 →
      (postSearch oracle q).1 = (search_articles_run oracle).result ∧
      (postSearch oracle q).2 =
        List.replicate (search_articles_run oracle).attempts q ∧
      1 ≤ (search_articles_run oracle).attempts) := by
  constructor
  · intro oracle q hq
    simp [postSearch, searchQueryValid, Nat.not_le.mpr hq]
  · intro oracle q hq
    refine ⟨?_, ?_, tenacityRun3_attempts_ge _ _ _⟩ <;>
      simp [postSearch, searchQueryValid, hq]

/-- Witness for C6: a 501-character query is rejected with no index
call; the empty query is accepted and delegated. -/
theorem C6_query_length_validation_witness :
    postSearch (fun _ => .ok []) (String.mk (List.replicate 501 'a')) =
      (.error (.validationError "String should have at most 500 characters"), []) ∧
    (postSearch (fun _ => .ok []) "").1 =
      (search_articles_run (fun _ => .ok [])).result :=
  ⟨C6_query_length_validation.1 _ _ (by
      have h : (String.mk (List.replicate 501 'a')).length = 501 := by
        show (List.replicate 501 'a').length = 501
        rw [List.length_replicate]
      omega),
   (C6_query_length_validation.2 _ "" (by decide)).1⟩

/-- C5: per-record content processing in `get_articles`: a string
payload that fails to decode yields content equal to that literal string
(no exception); an absent payload yields empty content; and an
unexpected error while processing one record's content does not abort
the page — that record's content falls back to the raw payload's string
representation and all remaining records are still processed. -/
theorem C5_content_processing :
    (∀ (loads : String → Option JValue) (reprRaw : RawContent → String)
       (s : String), loads s = none → s ≠ "" →
      processContent loads (fun j => .ok (extract_text_from_json j)) reprRaw
        (.strPayload s) = s) ∧
    (∀ (loads : String → Option JValue)
       (extractImpl : JValue → Except PyExc String)
       (reprRaw : RawContent → String),
      processContent loads extractImpl reprRaw .absent = "") ∧
    (∀ (loads : String → Option JValue)
       (extractImpl : JValue → Except PyExc String)
       (reprRaw : RawContent → String)
       (pre post : List RawRecord) (r : RawRecord) (e : PyExc),
      pyTruthy r.contentJson = true →
      extractImpl (decodeContent loads r.contentJson) = .error e →
      processRecords loads extractImpl reprRaw (pre ++ r :: post) =
        processRecords loads extractImpl reprRaw pre ++
          { id := r.id, title := r.title, description := r.description,
            content := reprRaw r.contentJson } ::
          processRecords loads extractImpl reprRaw post) := by
  refine ⟨?_, fun _ _ _ => rfl, ?_⟩
  · intro loads reprRaw s hl hs
    simp [processContent, pyTruthy, hs, decodeContent, hl, extract_str]
  · intro loads extractImpl reprRaw pre post r e ht he
    simp [processRecords, List.map_append, List.map_cons, processContent, ht, he]

/-- Witness for C5: the malformed payload `"not json"` becomes the
content verbatim, and a record whose extraction errors falls back to the
raw payload's representation while the page survives. -/
theorem C5_content_processing_witness :
    processContent (fun _ => none)
      (fun j => .ok (extract_text_from_json j)) (fun _ => "unused")
      (.strPayload "not json") = "not json" ∧
    processRecords (fun _ => none) (fun _ => .error (.valueError "boom"))
      (fun _ => "fallback")
      ([] ++ ({ id := "1", title := "t", description := "d",
                contentJson := .strPayload "x" } : RawRecord) :: []) =
      [] ++ ({ id := "1", title := "t", description := "d",
               content := "fallback" } : Article) :: [] :=
  ⟨C5_content_processing.1 _ _ _ rfl (by decide),
   C5_content_processing.2.2 _ _ _ [] [] _ _ (by decide) rfl⟩

/-- C8: one scheduled reindex run never propagates an exception to its
caller: whatever the fetch, index-existence check, index creation and
bulk write return, the body's outcome is caught — a failing body is
logged as `Reindexing failed: ...` and the run ends normally. -/
theorem C8_reindex_never_propagates :
    ∀ (fetch : Except PyExc (List Article))
      (getIndex createIndex : Except PyExc Unit)
      (addDocs : List Article → Except PyExc Unit),
      (∃ log, reindex_body fetch getIndex createIndex addDocs = .ok log ∧
        reindex_articles_run fetch getIndex createIndex addDocs =
          { completed := true, log := log }) ∨
      (∃ e, reindex_body fetch getIndex createIndex addDocs = .error e ∧
        reindex_articles_run fetch getIndex createIndex addDocs =
          { completed := false,
            log := ["Reindexing failed: " ++ pyStrExc e] }) := by
  intro fetch gi ci ad
  cases h : reindex_body fetch gi ci ad with
  | ok log => exact .inl ⟨log, rfl, by simp [reindex_articles_run, h]⟩
  | error e => exact .inr ⟨e, rfl, by simp [reindex_articles_run, h]⟩

/-- C1 (code bug, evaluated at the failing input): `reindex_articles`
calls `get_articles()` exactly once with the declaration defaults
`skip=0, limit=100`, so on a stable store of 101 articles the sequence
it fetches (and hence writes to the index) has only 100 records: the
101st article (id `"100"`) is skipped, contradicting "every article
record exactly once ... regardless of how many articles the store
holds". -/
theorem C1_reindex_misses_records_beyond_first_page :
    store101.length = 101 ∧
    (reindex_fetched_records store101).length = 100 ∧
    "100" ∈ store101.map RawRecord.id ∧
    "100" ∉ (reindex_fetched_records store101).map RawRecord.id := by
  refine ⟨by simp [store101], ?_, by decide, by decide⟩
  simp [reindex_fetched_records, get_articles_page, store101]

end ArticleSearch
